import Mathlib

/-!
Verification of the sandbox lifecycle manager and resource pool of the
`ai-code-sandbox` repository.  The definitions below are a shallow embedding of
`src/ai_code_sandbox/pool.py`, `src/ai_code_sandbox/config.py`,
`src/codegen_sandbox/sandbox.py` and `src/ai_code_sandbox/sandbox.py`.
Python floats on the resource-accounting paths are modelled as rationals;
Python dicts (which preserve insertion order) are modelled as association
lists with replace-in-place insertion; the external container runtime
(docker) and hash library are modelled by explicit parameters or by a fresh
name supply, as noted on each definition.
-/

/-- Modelled from the spec: the `SandboxResponse` record of the missing
`model.py` module (the spec calls it `ExecutionResult`).  Every construction
site in the source passes exactly the keyword arguments `stdout` and
`stderr`, both text. -/
structure SandboxResponse where
  stdout : String
  stderr : String
deriving DecidableEq

/-- A docker image as returned by `client.images.build`: the model keeps only
its `id` attribute, the one attribute the pool reads.  Equality of docker
model objects compares class and id, which the derived equality matches. -/
structure Image where
  id : String
deriving DecidableEq

/-- A Python dict key as used by `CodegenSandboxPool`: `constraints_cache` is
written with string keys (`image.id` in `_create_image`, pool.py:50) but read
with a docker `Image` object key (`_check_compatibility`, pool.py:30).  In
Python a string key and an `Image` key never compare equal, which the derived
equality on this sum reproduces. -/
inductive PyKey where
  | str (s : String)
  | img (i : Image)
deriving DecidableEq

/-- Python dict lookup `d.get(k)` on an insertion-ordered association list. -/
def dictGet {K V : Type} [DecidableEq K] : List (K × V) → K → Option V
  | [], _ => none
  | (k', v) :: rest, k => if k' = k then some v else dictGet rest k

/-- Python dict assignment `d[k] = v`: replaces the value in place if the key
exists, otherwise appends the new pair at the end. -/
def dictInsert {K V : Type} [DecidableEq K] : List (K × V) → K → V → List (K × V)
  | [], k, v => [(k, v)]
  | (k', v') :: rest, k, v =>
    if k' = k then (k, v) :: rest else (k', v') :: dictInsert rest k v

/-- Insert a string into an already sorted list (ascending, code-point
order, matching Python string comparison). -/
def insertSorted (x : String) : List String → List String
  | [] => [x]
  | y :: ys => if x ≤ y then x :: y :: ys else y :: insertSorted x ys

/-- Python `sorted` on a list of strings. -/
def pysorted : List String → List String
  | [] => []
  | x :: xs => insertSorted x (pysorted xs)

/-- Model of `packaging.requirements.Requirement(r).name` for plain
requirement strings such as `"numpy==1.0"`: the leading run of
name characters (PEP 508 names are `[A-Za-z0-9._-]+`). -/
def reqName (r : String) : String :=
  String.mk (r.data.takeWhile fun c => c.isAlphanum || c = '-' || c = '_' || c = '.')

/-- Model of `packaging.requirements.Requirement(r).specifier` (as a string)
for plain requirement strings: everything after the package name. -/
def reqSpec (r : String) : String :=
  String.mk (r.data.dropWhile fun c => c.isAlphanum || c = '-' || c = '_' || c = '.')

/-- Python `int()` applied to a rational: truncation toward zero. -/
def pyInt (q : ℚ) : ℤ := if 0 ≤ q then ⌊q⌋ else ⌈q⌉

/-- The two `SandboxError` exceptions raised by
`CodegenSandboxPool.get_sandbox` (pool.py:58 and pool.py:60).  The
constructors stand for the two distinct message strings, which name the
exceeded dimension: memory for the first, CPU for the second. -/
inductive SandboxError where
  | requestedMemoryExceedsPoolMax
  | requestedCpuExceedsPoolMax
deriving DecidableEq

/-- State of a `CodegenSandboxPool` (pool.py:14-21).  `max_memory` is the
numeric value of the `"…g"` string (gigabytes), `max_cpu` the float ceiling;
`alloc_memory` is kept in megabytes as in the source (`mem_limit.strip("m")`).
`image_cache` maps a requirements hash to the cached `Image` object;
`constraints_cache` is keyed by `PyKey` because the source mixes key types.
`next_image` is the fresh-name supply modelling `client.images.build`
returning a new image. -/
structure PoolState where
  max_memory : ℚ
  max_cpu : ℚ
  alloc_memory : ℚ
  alloc_cpu : ℚ
  image_cache : List (String × Image)
  constraints_cache : List (PyKey × List (String × String))
  next_image : Nat
deriving DecidableEq

/-- `CodegenSandboxPool.__init__` (pool.py:14-21) with the two ceilings
already converted to numbers. -/
def mkPool (max_memory max_cpu : ℚ) : PoolState :=
  ⟨max_memory, max_cpu, 0, 0, [], [], 0⟩

/-- `CodegenSandboxPool._hash_requirements` (pool.py:23-26), parametrised by
the external hash `H` (`hashlib.sha256(...).hexdigest()`). -/
def _hash_requirements (H : String → String) (base_image : String)
    (packages : List String) : String :=
  H (base_image ++ ":" ++ String.intercalate "," (pysorted packages))

/-- `CodegenSandboxPool._check_compatibility` (pool.py:28-40), parametrised
by `SC`, the external `SpecifierSet.contains` test applied to the recorded
specifier and the requested specifier.  `self.constraints_cache.get(image_id)`
receives the docker `Image` object as key; `if not cached_constraints` is
false both for a missing entry and for an empty dict. -/
def _check_compatibility (SC : String → String → Bool) (p : PoolState)
    (image : Image) (packages : List String) : Bool :=
  match dictGet p.constraints_cache (.img image) with
  | none => false
  | some cs =>
    if cs = [] then false
    else packages.all fun r =>
      match dictGet cs (reqName r) with
      | none => false
      | some spec => SC spec (reqSpec r)

/-- `CodegenSandboxPool._create_image` (pool.py:42-53): builds a fresh image
(the docker build is modelled by the `next_image` supply) and records the
declared constraints keyed by the image id string. -/
def _create_image (p : PoolState) (packages : List String) :
    PoolState × Image :=
  let iid := "img" ++ toString p.next_image
  let cs := packages.foldl (fun d r => dictInsert d (reqName r) (reqSpec r)) []
  ({ p with
      next_image := p.next_image + 1,
      constraints_cache := dictInsert p.constraints_cache (.str iid) cs },
   ⟨iid⟩)

/-- The image-resolution block of `CodegenSandboxPool.get_sandbox`
(pool.py:62-73): exact-key hit, else first compatible image in
`image_cache.values()` order, else build and record under the key. -/
def resolveImage (H : String → String) (SC : String → String → Bool)
    (p : PoolState) (base_image : String) (packages : List String) :
    PoolState × Image :=
  match dictGet p.image_cache (_hash_requirements H base_image packages) with
  | some img => (p, img)
  | none =>
    match (p.image_cache.map (·.2)).find?
        (fun img => _check_compatibility SC p img packages) with
    | some img => (p, img)
    | none =>
      let r := _create_image p packages
      ({ r.1 with
          image_cache := dictInsert r.1.image_cache
            (_hash_requirements H base_image packages) r.2 }, r.2)

/-- The sandbox object constructed at pool.py:75-79: the model records the
arguments of the `AICodeSandbox(image=…, mem_limit=…, cpu_quota=…)` call,
which are exactly the attributes `release_sandbox` reads back. -/
structure AICodeSandbox where
  image : String
  mem_limit : ℚ
  cpu_quota : ℤ
deriving DecidableEq

/-- `CodegenSandboxPool.get_sandbox` (pool.py:55-82).  The pair returned is
the pool state after the call together with either the raised `SandboxError`
(the state is unchanged: both raises happen before any mutation) or the
constructed sandbox.  The docker build inside `resolveImage` is modelled as
always succeeding. -/
def get_sandbox (H : String → String) (SC : String → String → Bool)
    (p : PoolState) (base_image : String) (packages : List String)
    (mem_limit cpu_quota : ℚ) :
    PoolState × Except SandboxError AICodeSandbox :=
  if mem_limit + p.alloc_memory > p.max_memory * 1024 then
    (p, .error .requestedMemoryExceedsPoolMax)
  else if cpu_quota + p.alloc_cpu > p.max_cpu then
    (p, .error .requestedCpuExceedsPoolMax)
  else
    let r := resolveImage H SC p base_image packages
    ({ r.1 with
        alloc_memory := r.1.alloc_memory + mem_limit,
        alloc_cpu := r.1.alloc_cpu + cpu_quota },
     .ok ⟨r.2.id, mem_limit, pyInt (cpu_quota * 100000)⟩)

/-- `CodegenSandboxPool.release_sandbox` (pool.py:84-88): decrements both
counters from the sandbox's stored attributes (it also calls
`sandbox.close()`, which does not touch the pool). -/
def release_sandbox (p : PoolState) (sandbox : AICodeSandbox) : PoolState :=
  { p with
      alloc_memory := p.alloc_memory - sandbox.mem_limit,
      alloc_cpu := p.alloc_cpu - (sandbox.cpu_quota : ℚ) / 100000 }

/-- The two attributes of `BaseCodegenSandbox` that its creation and teardown
paths mutate (`self.container`, `self.temp_image`; sandbox.py:66-67), each
holding an opaque docker handle modelled by its name. -/
structure CodegenState where
  container : Option String
  temp_image : Option String
deriving DecidableEq

/-- `BaseCodegenSandbox._setup_sandbox` (codegen_sandbox/sandbox.py:94-113),
with the two container-runtime calls injected as `buildR`
(`client.images.build`, performed only when `requirements` is non-empty) and
`runR` (`client.containers.run`).  The result is the attribute state at the
moment the method returns or raises, together with the raised error if any;
the source wraps neither call in a `try`, so a failure propagates with the
attributes left exactly as they were at the raise. -/
def _setup_sandbox (requirements : List String)
    (buildR : Except String String) (runR : Except String String) :
    CodegenState × Option String :=
  if requirements = [] then
    match runR with
    | .error e => (⟨none, none⟩, some e)
    | .ok c => (⟨some c, none⟩, none)
  else
    match buildR with
    | .error e => (⟨none, none⟩, some e)
    | .ok img =>
      match runR with
      | .error e => (⟨none, some img⟩, some e)
      | .ok c => (⟨some c, some img⟩, none)

/-- The runtime calls `close` can issue, in order of appearance
(codegen_sandbox/sandbox.py:290-303). -/
inductive CloseAction where
  | stop
  | removeContainer
  | removeImage
deriving DecidableEq

/-- The image-removal retry loop of `close`
(codegen_sandbox/sandbox.py:301-309): up to three `images.remove` attempts,
each failure logged followed by a backoff sleep; the `for`-`else` logs once
more when all three fail.  `attempt` numbers the injected outcomes. -/
def removeImageLoop (imgR : Nat → Except String Unit) :
    Nat → Nat → List CloseAction × List String
  | _, 0 => ([], ["Failed to remove temporary image after multiple attempts"])
  | attempt, fuel + 1 =>
    match imgR attempt with
    | .ok _ => ([.removeImage], [])
    | .error e =>
      let rest := removeImageLoop imgR (attempt + 1) fuel
      (.removeImage :: rest.1, ("Attempt to remove image failed: " ++ e) :: rest.2)

/-- `BaseCodegenSandbox.close` (codegen_sandbox/sandbox.py:282-313), with the
runtime outcomes injected: `stopR` for `container.stop`, `removeR` for
`container.remove`, `imgR` for the successive `images.remove` attempts.
Both blocks catch every runtime error and only log it (the `print` calls are
collected as the log list), and the `finally` clauses clear both attributes,
so the method always returns `⟨none, none⟩` and never raises — the embedding
has no error outcome because the source swallows every exception.  The
returned action list records which runtime calls were issued (a failed
`stop` skips `remove`, and no call at all is issued for an attribute that is
already `None`). -/
def close (st : CodegenState) (stopR removeR : Except String Unit)
    (imgR : Nat → Except String Unit) :
    CodegenState × List CloseAction × List String :=
  let containerPart : List CloseAction × List String :=
    match st.container with
    | none => ([], [])
    | some _ =>
      match stopR with
      | .error e => ([.stop], ["Error stopping/removing container: " ++ e])
      | .ok _ =>
        match removeR with
        | .error e =>
          ([.stop, .removeContainer], ["Error stopping/removing container: " ++ e])
        | .ok _ => ([.stop, .removeContainer], [])
  let imagePart : List CloseAction × List String :=
    match st.temp_image with
    | none => ([], [])
    | some _ => removeImageLoop imgR 0 3
  (⟨none, none⟩, containerPart.1 ++ imagePart.1, containerPart.2 ++ imagePart.2)

/-- `BaseCodegenSandbox.close` reads and writes only `self.container`,
`self.temp_image` and `self.client` (codegen_sandbox/sandbox.py:282-313): the
pool and its counters do not occur in the method, so invoking `close` leaves
any `PoolState` as it is.  This definition records that fact so that
allocation-release properties can be stated against it. -/
def closeOnPool (p : PoolState) (st : CodegenState)
    (stopR removeR : Except String Unit) (imgR : Nat → Except String Unit) :
    PoolState × CodegenState × List CloseAction × List String :=
  (p, close st stopR removeR imgR)

/-- The response assembly of `BaseCodegenSandbox.run_code`
(codegen_sandbox/sandbox.py:271-280; identical in
`AICodeSandbox.run_code`, ai_code_sandbox/sandbox.py:182-191): the demuxed
exec result gives the exit status and the two separately captured streams
(`none` models an absent stream, decoded to the empty string); a non-zero
status prepends the exit-code marker to stderr and nothing raises. -/
def run_code_response (status : ℤ) (stdout stderr : Option String) :
    SandboxResponse :=
  let out := match stdout with | none => "" | some s => s
  let err := match stderr with | none => "" | some s => s
  if status ≠ 0 then
    ⟨out, "(exit code " ++ toString status ++ ")" ++ err⟩
  else
    ⟨out, err⟩

/-- The timeout wrapping of `run_code` (codegen_sandbox/sandbox.py:262-263;
identical in ai_code_sandbox/sandbox.py:173-174): `if timeout:` is Python
truthiness, false for `None` and for `0`. -/
def run_code_command (exec_command : String) (timeout : Option ℤ) : String :=
  match timeout with
  | none => exec_command
  | some t =>
    if t = 0 then exec_command
    else "timeout " ++ toString t ++ "s " ++ exec_command

/-- Outcome of `run_requirements_compliance`: either a short-circuited
response or the delegation `self.run_code(self._compliance_script(...))`
with the script it would execute. -/
inductive ComplianceOutcome where
  | shortCircuit (r : SandboxResponse)
  | executes (script : String)
deriving DecidableEq

/-- `BaseCodegenSandbox.run_requirements_compliance`
(codegen_sandbox/sandbox.py:224-238).  `script` is the per-language
`_compliance_script` collaborator; `selfRequirements` is the
`self.requirements` attribute (`requirements or []` at construction).
`if not requirements` / `if not self.requirements` are Python truthiness on
lists, i.e. emptiness. -/
def run_requirements_compliance (script : List String → String)
    (selfRequirements requirements : List String) : ComplianceOutcome :=
  if requirements = [] then
    .shortCircuit ⟨"", ""⟩
  else if selfRequirements = [] then
    .shortCircuit ⟨"", "SandboxRequirementsError: requirements-free sandbox"⟩
  else
    .executes (script requirements)

/-- `SandboxConfig` (ai_code_sandbox/config.py:14-17). -/
structure SandboxConfig where
  mem_limit : String
  cpu_quota : Nat
deriving DecidableEq

/-- The fixed tier table `readymade` (ai_code_sandbox/config.py:20-29), in
source (insertion) order. -/
def readymade : List (String × SandboxConfig) :=
  [("tiny",    ⟨"128m", 25000⟩),
   ("small",   ⟨"512m", 50000⟩),
   ("medium",  ⟨"1g",   75000⟩),
   ("large",   ⟨"2g",   100000⟩),
   ("xlarge",  ⟨"4g",   150000⟩),
   ("2xlarge", ⟨"8g",   200000⟩),
   ("4xlarge", ⟨"16g",  300000⟩),
   ("8xlarge", ⟨"32g",  400000⟩)]

/-- Python `int()` on a non-empty string of decimal digits. -/
def digitsToNat (l : List Char) : Nat :=
  l.foldl (fun acc c => acc * 10 + (c.toNat - 48)) 0

/-- `_mem_limit_to_int` (ai_code_sandbox/config.py:32-44).  The
`mem_limit.isdigit()` branch parses the whole string; otherwise the last
character selects the unit from the lookup table and the prefix is parsed.
For a suffix outside the lookup table the source raises `KeyError`; the model
returns 0 there, and is only ever applied to the fixed table above, whose
entries all parse. -/
def _mem_limit_to_int (mem_limit : String) : Nat :=
  if mem_limit.data ≠ [] ∧ mem_limit.data.all Char.isDigit then
    digitsToNat mem_limit.data
  else
    let value := digitsToNat mem_limit.data.dropLast
    let lut : Nat :=
      match mem_limit.data.getLast? with
      | some 'k' => 1024
      | some 'm' => 1024 ^ 2
      | some 'g' => 1024 ^ 3
      | _ => 0
    value * lut

/-- The scan inside `filtering_available` (ai_code_sandbox/config.py:53-60):
walk the table in order and `break` at the first tier whose memory limit or
cpu quota exceeds the corresponding host ceiling. -/
def filtering_available_go (memCeil cpuCeil : Nat) :
    List (String × SandboxConfig) → List String
  | [] => []
  | (naming, config) :: rest =>
    if _mem_limit_to_int config.mem_limit > memCeil then []
    else if config.cpu_quota > cpuCeil then []
    else naming :: filtering_available_go memCeil cpuCeil rest

/-- `filtering_available` (ai_code_sandbox/config.py:47-65), parametrised by
the two host ceilings `_max_mem_limit` and `_max_cpu_quota` (config.py:10-11,
computed from psutil).  The source returns `set(available)` together with
`available[-1]` (or `"null"`); the model keeps the list, whose membership is
the set. -/
def filtering_available (memCeil cpuCeil : Nat) : List String × String :=
  let available := filtering_available_go memCeil cpuCeil readymade
  (available, (available.getLast?).getD "null")

/-! ## Helper lemmas -/

deriving instance DecidableEq for Except

theorem resolveImage_alloc (H : String → String) (SC : String → String → Bool)
    (p : PoolState) (base_image : String) (packages : List String) :
    (resolveImage H SC p base_image packages).1.alloc_memory = p.alloc_memory ∧
    (resolveImage H SC p base_image packages).1.alloc_cpu = p.alloc_cpu ∧
    (resolveImage H SC p base_image packages).1.max_memory = p.max_memory ∧
    (resolveImage H SC p base_image packages).1.max_cpu = p.max_cpu := by
  rcases hk : dictGet p.image_cache (_hash_requirements H base_image packages)
      with _ | img <;>
    rcases hf : (p.image_cache.map (·.2)).find?
        (fun img => _check_compatibility SC p img packages) with _ | img2 <;>
    simp [resolveImage, _create_image, hk, hf]

theorem get_sandbox_mem_fail (H : String → String) (SC : String → String → Bool)
    (p : PoolState) (base_image : String) (packages : List String)
    (mem_limit cpu_quota : ℚ)
    (h1 : mem_limit + p.alloc_memory > p.max_memory * 1024) :
    get_sandbox H SC p base_image packages mem_limit cpu_quota
      = (p, .error .requestedMemoryExceedsPoolMax) := by
  unfold get_sandbox
  rw [if_pos h1]

theorem get_sandbox_cpu_fail (H : String → String) (SC : String → String → Bool)
    (p : PoolState) (base_image : String) (packages : List String)
    (mem_limit cpu_quota : ℚ)
    (h1 : ¬ mem_limit + p.alloc_memory > p.max_memory * 1024)
    (h2 : cpu_quota + p.alloc_cpu > p.max_cpu) :
    get_sandbox H SC p base_image packages mem_limit cpu_quota
      = (p, .error .requestedCpuExceedsPoolMax) := by
  unfold get_sandbox
  rw [if_neg h1, if_pos h2]

theorem get_sandbox_ok (H : String → String) (SC : String → String → Bool)
    (p : PoolState) (base_image : String) (packages : List String)
    (mem_limit cpu_quota : ℚ)
    (h1 : ¬ mem_limit + p.alloc_memory > p.max_memory * 1024)
    (h2 : ¬ cpu_quota + p.alloc_cpu > p.max_cpu) :
    get_sandbox H SC p base_image packages mem_limit cpu_quota
      = ({ (resolveImage H SC p base_image packages).1 with
            alloc_memory :=
              (resolveImage H SC p base_image packages).1.alloc_memory + mem_limit,
            alloc_cpu :=
              (resolveImage H SC p base_image packages).1.alloc_cpu + cpu_quota },
         .ok ⟨(resolveImage H SC p base_image packages).2.id, mem_limit,
              pyInt (cpu_quota * 100000)⟩) := by
  unfold get_sandbox
  rw [if_neg h1, if_neg h2]

/-- C1: admission in `get_sandbox` succeeds iff both resource checks pass on
the pre-admission state; on failure the raised error names the exceeded
dimension and the pool state (hence both counters) is unchanged; on success
both counters are incremented by the requested amounts. -/
theorem C1_admission (H : String → String) (SC : String → String → Bool)
    (p : PoolState) (base_image : String) (packages : List String)
    (mem_limit cpu_quota : ℚ) :
    ((∃ sb, (get_sandbox H SC p base_image packages mem_limit cpu_quota).2 = .ok sb)
      ↔ mem_limit + p.alloc_memory ≤ p.max_memory * 1024
        ∧ cpu_quota + p.alloc_cpu ≤ p.max_cpu)
    ∧ (∀ e, (get_sandbox H SC p base_image packages mem_limit cpu_quota).2 = .error e →
        (get_sandbox H SC p base_image packages mem_limit cpu_quota).1 = p
        ∧ (e = .requestedMemoryExceedsPoolMax
            ↔ mem_limit + p.alloc_memory > p.max_memory * 1024)
        ∧ (e = .requestedCpuExceedsPoolMax
            ↔ mem_limit + p.alloc_memory ≤ p.max_memory * 1024
              ∧ cpu_quota + p.alloc_cpu > p.max_cpu))
    ∧ (∀ sb, (get_sandbox H SC p base_image packages mem_limit cpu_quota).2 = .ok sb →
        (get_sandbox H SC p base_image packages mem_limit cpu_quota).1.alloc_memory
            = p.alloc_memory + mem_limit
        ∧ (get_sandbox H SC p base_image packages mem_limit cpu_quota).1.alloc_cpu
            = p.alloc_cpu + cpu_quota) := by
  obtain ⟨hm, hc, -, -⟩ := resolveImage_alloc H SC p base_image packages
  by_cases h1 : mem_limit + p.alloc_memory > p.max_memory * 1024
  · rw [get_sandbox_mem_fail H SC p base_image packages mem_limit cpu_quota h1]
    refine ⟨?_, ?_, ?_⟩
    · constructor
      · rintro ⟨sb, hsb⟩; cases hsb
      · rintro ⟨hle, -⟩; exact absurd h1 (not_lt.mpr hle)
    · intro e he
      cases he
      refine ⟨rfl, ⟨fun _ => h1, fun _ => rfl⟩, ⟨fun hh => ?_, fun hh => ?_⟩⟩
      · cases hh
      · exact absurd h1 (not_lt.mpr hh.1)
    · intro sb hsb; cases hsb
  · by_cases h2 : cpu_quota + p.alloc_cpu > p.max_cpu
    · rw [get_sandbox_cpu_fail H SC p base_image packages mem_limit cpu_quota h1 h2]
      refine ⟨?_, ?_, ?_⟩
      · constructor
        · rintro ⟨sb, hsb⟩; cases hsb
        · rintro ⟨-, hle⟩; exact absurd h2 (not_lt.mpr hle)
      · intro e he
        cases he
        refine ⟨rfl, ⟨fun hh => ?_, fun hh => ?_⟩, ⟨fun _ => ⟨not_lt.mp h1, h2⟩, fun _ => rfl⟩⟩
        · cases hh
        · exact absurd hh h1
      · intro sb hsb; cases hsb
    · rw [get_sandbox_ok H SC p base_image packages mem_limit cpu_quota h1 h2]
      refine ⟨?_, ?_, ?_⟩
      · exact ⟨fun _ => ⟨not_lt.mp h1, not_lt.mp h2⟩, fun _ => ⟨_, rfl⟩⟩
      · intro e he; cases he
      · intro sb _
        exact ⟨by rw [hm], by rw [hc]⟩

/-- Witness for C1 at a concrete input: a fresh 1 GB / 1-CPU pool admits a
100 MB / half-CPU request, incrementing both counters. -/
theorem C1_admission_witness :
    (get_sandbox (fun s => s) (fun _ _ => false) (mkPool 1 1)
        "python:3.9-slim" [] 100 (1/2)).1.alloc_memory
      = (mkPool 1 1).alloc_memory + 100
    ∧ (get_sandbox (fun s => s) (fun _ _ => false) (mkPool 1 1)
        "python:3.9-slim" [] 100 (1/2)).1.alloc_cpu
      = (mkPool 1 1).alloc_cpu + 1/2 :=
  (C1_admission (fun s => s) (fun _ _ => false) (mkPool 1 1)
      "python:3.9-slim" [] 100 (1/2)).2.2 ⟨"img0", 100, 50000⟩ (by
    rw [get_sandbox_ok (fun s => s) (fun _ _ => false) (mkPool 1 1)
        "python:3.9-slim" [] 100 (1/2)
        (by norm_num [mkPool]) (by norm_num [mkPool])]
    simp [resolveImage, _create_image, _hash_requirements, pysorted, dictGet,
      pyInt, mkPool]
    refine ⟨rfl, ?_⟩
    rw [show ((2:ℚ)⁻¹ * 100000) = ((50000 : ℤ) : ℚ) by norm_num, Int.floor_intCast])

/-- C6: `run_code` captures stdout and stderr separately (stdout depends only
on the stdout stream, never on stderr), returns a response in every case, and
a non-zero exit status `N` is reported by prepending the exit-code marker to
the original stderr while a zero status leaves stderr unmodified. -/
theorem C6_run_code (status : ℤ) (stdout stderr stderr2 : Option String) :
    (run_code_response status stdout stderr).stdout = stdout.getD ""
    ∧ (run_code_response status stdout stderr).stdout
        = (run_code_response status stdout stderr2).stdout
    ∧ (run_code_response status stdout stderr).stderr
        = (if status = 0 then stderr.getD ""
           else "(exit code " ++ toString status ++ ")" ++ stderr.getD "") := by
  unfold run_code_response
  cases stdout <;> cases stderr <;> cases stderr2 <;>
    by_cases h : status = 0 <;> simp [h]

/-- C10: `run_code` applies the `timeout` prefix only for a non-`None`,
non-zero timeout argument; `timeout=0` is falsy in Python and is treated the
same as an absent timeout (no enforcement prefix at all). -/
theorem C10_timeout_zero (exec_command : String) (t : ℤ) :
    run_code_command exec_command (some 0) = exec_command
    ∧ run_code_command exec_command none = exec_command
    ∧ (t ≠ 0 → run_code_command exec_command (some t)
        = "timeout " ++ toString t ++ "s " ++ exec_command) := by
  refine ⟨rfl, rfl, fun ht => ?_⟩
  simp [run_code_command, ht]

/-- Witness for C10 at a concrete non-zero timeout. -/
theorem C10_timeout_zero_witness :
    (5 : ℤ) ≠ 0
    ∧ run_code_command "echo hi" (some 5) = "timeout " ++ toString (5:ℤ) ++ "s " ++ "echo hi" :=
  ⟨by decide, (C10_timeout_zero "echo hi" 5).2.2 (by decide)⟩

/-- C8: `run_requirements_compliance` with an empty requirement list returns
the empty success response no matter what the sandbox was created with, and
with a non-empty list on a requirements-free sandbox returns the fixed
requirements-free error response without executing any script. -/
theorem C8_compliance (script : List String → String)
    (selfRequirements requirements : List String) :
    run_requirements_compliance script selfRequirements [] = .shortCircuit ⟨"", ""⟩
    ∧ (requirements ≠ [] →
        run_requirements_compliance script [] requirements
          = .shortCircuit ⟨"", "SandboxRequirementsError: requirements-free sandbox"⟩) := by
  refine ⟨rfl, fun h => ?_⟩
  simp [run_requirements_compliance, h]

/-- Witness for C8: a sandbox created with requirements still short-circuits
on an empty list, and a requirements-free sandbox short-circuits on a
non-empty list. -/
theorem C8_compliance_witness :
    (["numpy"] : List String) ≠ []
    ∧ run_requirements_compliance (fun _ => "") [] ["numpy"]
        = .shortCircuit ⟨"", "SandboxRequirementsError: requirements-free sandbox"⟩ :=
  ⟨by decide, (C8_compliance (fun _ => "") ["requests>2"] ["numpy"]).2 (by decide)⟩

/-- C2 counterexample: with requirements `["requests>2"]`, a successful image
build followed by a failed container start surfaces the error while the
temporary image built exclusively for this attempt is still in place — the
claimed rollback (image removed before the error is surfaced) does not
happen. -/
theorem C2_rollback_counterexample :
    (_setup_sandbox ["requests>2"] (.ok "img1") (.error "boom")).2 = some "boom"
    ∧ (_setup_sandbox ["requests>2"] (.ok "img1") (.error "boom")).1.temp_image
        = some "img1"
    ∧ some "img1" ≠ (none : Option String) := by
  refine ⟨rfl, rfl, by simp⟩

/-- C2 (amended): on any creation failure the sandbox never reaches the
running state (its container handle stays unset) and a failed build leaves no
side effects at all; the pool's counters are untouched by a failed
`get_sandbox`; but when the container start fails after a successful build,
the temporary image is left in place when the error is surfaced. -/
theorem C2_rollback_amended (requirements : List String)
    (buildR runR : Except String String) :
    (∀ e, (_setup_sandbox requirements buildR runR).2 = some e →
        (_setup_sandbox requirements buildR runR).1.container = none)
    ∧ (∀ e, requirements ≠ [] → buildR = .error e →
        _setup_sandbox requirements buildR runR = (⟨none, none⟩, some e))
    ∧ (∀ img e, requirements ≠ [] → buildR = .ok img → runR = .error e →
        _setup_sandbox requirements buildR runR = (⟨none, some img⟩, some e))
    ∧ (∀ (H : String → String) (SC : String → String → Bool) (p : PoolState)
          base_image packages mem_limit cpu_quota e,
        (get_sandbox H SC p base_image packages mem_limit cpu_quota).2 = .error e →
        (get_sandbox H SC p base_image packages mem_limit cpu_quota).1 = p) := by
  refine ⟨?_, ?_, ?_, ?_⟩
  · intro e he
    unfold _setup_sandbox at *
    split at he <;> rcases buildR with _ | _ <;> rcases runR with _ | _ <;>
      simp_all
  · intro e hreq hb
    subst hb
    simp [_setup_sandbox, hreq]
  · intro img e hreq hb hr
    subst hb; subst hr
    simp [_setup_sandbox, hreq]
  · intro H SC p base_image packages mem_limit cpu_quota e he
    by_cases h1 : mem_limit + p.alloc_memory > p.max_memory * 1024
    · rw [get_sandbox_mem_fail H SC p base_image packages _ _ h1]
    · by_cases h2 : cpu_quota + p.alloc_cpu > p.max_cpu
      · rw [get_sandbox_cpu_fail H SC p base_image packages _ _ h1 h2]
      · rw [get_sandbox_ok H SC p base_image packages _ _ h1 h2] at he
        cases he

/-- Witness for C2 (amended) at concrete inputs: build failure leaves no side
effects; container-start failure leaves the built image in place with no
container. -/
theorem C2_rollback_amended_witness :
    _setup_sandbox ["requests>2"] (.error "no build") (.ok "c0")
        = (⟨none, none⟩, some "no build")
    ∧ _setup_sandbox ["requests>2"] (.ok "img9") (.error "no start")
        = (⟨none, some "img9"⟩, some "no start") :=
  ⟨(C2_rollback_amended ["requests>2"] (.error "no build") (.ok "c0")).2.1
      "no build" (by decide) rfl,
   (C2_rollback_amended ["requests>2"] (.ok "img9") (.error "no start")).2.2.1
      "img9" "no start" (by decide) rfl rfl⟩

/-- C7 counterexample: a fresh pool admits a 100 MB / half-CPU sandbox; the
sandbox is then closed twice.  If `close` released the accountant's matching
allocation exactly once, the pool's memory counter would be back at its
pre-admission value 0; instead `close` never touches the pool and the counter
still reads 100 — the allocation is released zero times, not once. -/
theorem C7_close_counterexample :
    (get_sandbox (fun s => s) (fun _ _ => false) (mkPool 1000 100)
        "python:3.9-slim" [] 100 (1/2)).2
      = .ok ⟨"img0", 100, 50000⟩
    ∧ (closeOnPool
        (closeOnPool
          (get_sandbox (fun s => s) (fun _ _ => false) (mkPool 1000 100)
              "python:3.9-slim" [] 100 (1/2)).1
          ⟨some "c0", none⟩ (.ok ()) (.ok ()) (fun _ => .ok ())).1
        ⟨none, none⟩ (.ok ()) (.ok ()) (fun _ => .ok ())).1.alloc_memory
      = 100
    ∧ (100 : ℚ) ≠ 0
    ∧ (mkPool 1000 100).alloc_memory = 0 := by
  have hok := get_sandbox_ok (fun s => s) (fun _ _ => false) (mkPool 1000 100)
      "python:3.9-slim" [] 100 (1/2)
      (by norm_num [mkPool]) (by norm_num [mkPool])
  refine ⟨?_, ?_, by norm_num, rfl⟩
  · rw [hok]
    simp [resolveImage, _create_image, _hash_requirements, pysorted, dictGet,
      pyInt, mkPool]
    refine ⟨rfl, ?_⟩
    rw [show ((2:ℚ)⁻¹ * 100000) = ((50000 : ℤ) : ℚ) by norm_num, Int.floor_intCast]
  · rw [closeOnPool, closeOnPool, hok]
    simp [resolveImage, _create_image, _hash_requirements, pysorted, dictGet,
      mkPool]

/-- C7 (amended): `close` is idempotent and never raises (every runtime error
is swallowed into the log); after any close both handle attributes are
cleared, so a second close performs no runtime action and logs nothing;
`close` itself never releases the accountant's allocation — the pool is
untouched by `close`, and the counters change only via `release_sandbox`,
which decrements them by the sandbox's recorded amounts each time it is
called. -/
theorem C7_close_amended (st : CodegenState)
    (stopR removeR stopR2 removeR2 : Except String Unit)
    (imgR imgR2 : Nat → Except String Unit)
    (p : PoolState) (sandbox : AICodeSandbox) :
    (close st stopR removeR imgR).1 = ⟨none, none⟩
    ∧ close (close st stopR removeR imgR).1 stopR2 removeR2 imgR2
        = (⟨none, none⟩, [], [])
    ∧ (closeOnPool p st stopR removeR imgR).1 = p
    ∧ (release_sandbox p sandbox).alloc_memory = p.alloc_memory - sandbox.mem_limit
    ∧ (release_sandbox p sandbox).alloc_cpu
        = p.alloc_cpu - (sandbox.cpu_quota : ℚ) / 100000 := by
  exact ⟨rfl, rfl, rfl, rfl, rfl⟩

/-- C5 counterexample: admitting a sandbox with `cpu_quota = 1/3` from a
fresh pool and immediately releasing it leaves the cpu counter at
`1/300000`, not at its pre-admission value `0`: the admission adds the
requested quota while the release subtracts
`int(cpu_quota * 100000) / 100000 = 33333/100000`. -/
theorem C5_admit_release_counterexample :
    (get_sandbox (fun s => s) (fun _ _ => false) (mkPool 1000 100)
        "python:3.9-slim" [] 100 (1/3)).2 = .ok ⟨"img0", 100, 33333⟩
    ∧ (release_sandbox
        (get_sandbox (fun s => s) (fun _ _ => false) (mkPool 1000 100)
            "python:3.9-slim" [] 100 (1/3)).1
        ⟨"img0", 100, 33333⟩).alloc_memory = (mkPool 1000 100).alloc_memory
    ∧ (release_sandbox
        (get_sandbox (fun s => s) (fun _ _ => false) (mkPool 1000 100)
            "python:3.9-slim" [] 100 (1/3)).1
        ⟨"img0", 100, 33333⟩).alloc_cpu = 1/300000
    ∧ (1/300000 : ℚ) ≠ 0
    ∧ (mkPool 1000 100).alloc_cpu = 0 := by
  have hok := get_sandbox_ok (fun s => s) (fun _ _ => false) (mkPool 1000 100)
      "python:3.9-slim" [] 100 (1/3)
      (by norm_num [mkPool]) (by norm_num [mkPool])
  have hfloor : pyInt ((1/3 : ℚ) * 100000) = 33333 := by
    rw [pyInt, if_pos (by norm_num), Int.floor_eq_iff] <;> norm_num
  refine ⟨?_, ?_, ?_, by norm_num, rfl⟩
  · rw [hok]
    simp [resolveImage, _create_image, _hash_requirements, pysorted, dictGet,
      mkPool]
    refine ⟨rfl, ?_⟩
    rw [pyInt, if_pos (by norm_num), Int.floor_eq_iff] <;> norm_num
  · rw [hok]
    simp [release_sandbox, resolveImage, _create_image, _hash_requirements,
      pysorted, dictGet, mkPool]
  · rw [hok]
    simp [release_sandbox, resolveImage, _create_image, _hash_requirements,
      pysorted, dictGet, mkPool]
    norm_num

/-- C5 (amended): a successful admission followed immediately by release of
the same sandbox always restores the allocated-memory counter exactly, and
restores the allocated-cpu counter if and only if `cpu_quota * 100000` is an
integer — the sandbox stores `int(cpu_quota * 100000)` and the release gives
back that value divided by 100000, so any fractional remainder leaks. -/
theorem C5_admit_release_amended (H : String → String)
    (SC : String → String → Bool) (p : PoolState) (base_image : String)
    (packages : List String) (mem_limit cpu_quota : ℚ)
    (p1 : PoolState) (sandbox : AICodeSandbox)
    (h : get_sandbox H SC p base_image packages mem_limit cpu_quota
          = (p1, .ok sandbox)) :
    (release_sandbox p1 sandbox).alloc_memory = p.alloc_memory
    ∧ ((release_sandbox p1 sandbox).alloc_cpu = p.alloc_cpu
        ↔ (pyInt (cpu_quota * 100000) : ℚ) = cpu_quota * 100000) := by
  by_cases h1 : mem_limit + p.alloc_memory > p.max_memory * 1024
  · rw [get_sandbox_mem_fail H SC p base_image packages _ _ h1] at h
    simp at h
  by_cases h2 : cpu_quota + p.alloc_cpu > p.max_cpu
  · rw [get_sandbox_cpu_fail H SC p base_image packages _ _ h1 h2] at h
    simp at h
  rw [get_sandbox_ok H SC p base_image packages _ _ h1 h2] at h
  obtain ⟨hm, hc, -, -⟩ := resolveImage_alloc H SC p base_image packages
  simp only [Prod.mk.injEq, Except.ok.injEq] at h
  obtain ⟨hp1, hsb⟩ := h
  subst hp1; subst hsb
  constructor
  · simp only [release_sandbox, hm]
    ring
  · simp only [release_sandbox, hc]
    constructor
    · intro hEq
      have hdiv : (pyInt (cpu_quota * 100000) : ℚ) / 100000 = cpu_quota := by
        linarith
      rw [div_eq_iff (by norm_num : (100000:ℚ) ≠ 0)] at hdiv
      rw [hdiv]
    · intro hEq
      rw [hEq]
      have : cpu_quota * 100000 / 100000 = cpu_quota := by
        field_simp
      rw [this]
      ring

/-- Witness for C5 (amended) at `cpu_quota = 1/2`: both counters are restored
because `1/2 * 100000 = 50000` is an integer. -/
theorem C5_admit_release_amended_witness :
    (release_sandbox
        (get_sandbox (fun s => s) (fun _ _ => false) (mkPool 1000 100)
            "python:3.9-slim" [] 100 (1/2)).1
        ⟨"img0", 100, 50000⟩).alloc_memory = (mkPool 1000 100).alloc_memory
    ∧ ((release_sandbox
        (get_sandbox (fun s => s) (fun _ _ => false) (mkPool 1000 100)
            "python:3.9-slim" [] 100 (1/2)).1
        ⟨"img0", 100, 50000⟩).alloc_cpu = (mkPool 1000 100).alloc_cpu
        ↔ (pyInt ((1/2 : ℚ) * 100000) : ℚ) = (1/2 : ℚ) * 100000) :=
  C5_admit_release_amended (fun s => s) (fun _ _ => false) (mkPool 1000 100)
    "python:3.9-slim" [] 100 (1/2) _ ⟨"img0", 100, 50000⟩ (by
      rw [Prod.ext_iff]
      refine ⟨rfl, ?_⟩
      rw [get_sandbox_ok (fun s => s) (fun _ _ => false) (mkPool 1000 100)
          "python:3.9-slim" [] 100 (1/2)
          (by norm_num [mkPool]) (by norm_num [mkPool])]
      simp [resolveImage, _create_image, _hash_requirements, pysorted, dictGet,
        pyInt, mkPool]
      refine ⟨rfl, ?_⟩
      rw [show ((2:ℚ)⁻¹ * 100000) = ((50000 : ℤ) : ℚ) by norm_num,
        Int.floor_intCast])

/-- Keys of the `constraints_cache` as reachable from `__init__`: every entry
was written by `_create_image` under a string key (`image.id`). -/
def StrKeys (p : PoolState) : Prop :=
  ∀ kv ∈ p.constraints_cache, ∃ s, kv.1 = PyKey.str s

theorem dictGet_str_keys_img {l : List (PyKey × List (String × String))}
    (h : ∀ kv ∈ l, ∃ s, kv.1 = PyKey.str s) (i : Image) :
    dictGet l (.img i) = none := by
  induction l with
  | nil => rfl
  | cons kv rest ih =>
    obtain ⟨s, hs⟩ := h kv (List.mem_cons_self kv rest)
    rcases kv with ⟨k, v⟩
    rcases hs
    simp only [dictGet, reduceCtorEq, if_false]
    exact ih fun kv hm => h kv (List.mem_cons_of_mem _ hm)

theorem check_compat_false (SC : String → String → Bool) (p : PoolState)
    (image : Image) (packages : List String) (h : StrKeys p) :
    _check_compatibility SC p image packages = false := by
  unfold _check_compatibility
  rw [dictGet_str_keys_img h]

theorem find_compat_none (SC : String → String → Bool) (p : PoolState)
    (packages : List String) (h : StrKeys p) :
    (p.image_cache.map (·.2)).find?
        (fun img => _check_compatibility SC p img packages) = none := by
  apply List.find?_eq_none.mpr
  intro x _
  simp [check_compat_false SC p x packages h]

theorem dictGet_dictInsert_self {K V : Type} [DecidableEq K]
    (l : List (K × V)) (k : K) (v : V) :
    dictGet (dictInsert l k v) k = some v := by
  induction l with
  | nil => simp [dictInsert, dictGet]
  | cons kv rest ih =>
    rcases kv with ⟨k', v'⟩
    by_cases hk : k' = k
    · simp [dictInsert, dictGet, hk]
    · simp [dictInsert, dictGet, hk, ih]

theorem resolveImage_hit (H : String → String) (SC : String → String → Bool)
    (p : PoolState) (base_image : String) (packages : List String) (i : Image)
    (h : dictGet p.image_cache (_hash_requirements H base_image packages)
          = some i) :
    resolveImage H SC p base_image packages = (p, i) := by
  unfold resolveImage
  rw [h]

theorem resolveImage_key_present (H : String → String)
    (SC : String → String → Bool) (p : PoolState) (base_image : String)
    (packages : List String) (h : StrKeys p) :
    dictGet (resolveImage H SC p base_image packages).1.image_cache
        (_hash_requirements H base_image packages)
      = some (resolveImage H SC p base_image packages).2 := by
  rcases hk : dictGet p.image_cache (_hash_requirements H base_image packages)
      with _ | img
  · unfold resolveImage
    rw [hk, find_compat_none SC p packages h]
    exact dictGet_dictInsert_self _ _ _
  · rw [resolveImage_hit H SC p base_image packages img hk]
    exact hk

/-- C4: the cache key is the hash of the base image name, a colon, and the
sorted requirement strings joined by commas; after a first successful
`get_sandbox`, the exact key is in the image cache, and a second call with
the identical `(base_image, packages)` finds that key and never triggers a
second image build (the fresh-image supply and the image cache are both left
unchanged).  The `StrKeys` hypothesis states that every constraints-cache
entry is keyed by a string, which holds for every pool reachable from
`__init__` since only `_create_image` writes that cache. -/
theorem C4_exact_key_cache (H : String → String) (SC : String → String → Bool)
    (p : PoolState) (base_image : String) (packages : List String)
    (mem_limit cpu_quota mem_limit2 cpu_quota2 : ℚ)
    (hwf : StrKeys p)
    (hok : ∃ sb, (get_sandbox H SC p base_image packages mem_limit cpu_quota).2
            = .ok sb) :
    _hash_requirements H base_image packages
      = H (base_image ++ ":" ++ String.intercalate "," (pysorted packages))
    ∧ (dictGet
        (get_sandbox H SC p base_image packages mem_limit cpu_quota).1.image_cache
        (_hash_requirements H base_image packages)).isSome
    ∧ (get_sandbox H SC
        (get_sandbox H SC p base_image packages mem_limit cpu_quota).1
        base_image packages mem_limit2 cpu_quota2).1.next_image
      = (get_sandbox H SC p base_image packages mem_limit cpu_quota).1.next_image
    ∧ (get_sandbox H SC
        (get_sandbox H SC p base_image packages mem_limit cpu_quota).1
        base_image packages mem_limit2 cpu_quota2).1.image_cache
      = (get_sandbox H SC p base_image packages mem_limit cpu_quota).1.image_cache
    := by
  obtain ⟨sb, hsb⟩ := hok
  by_cases h1 : mem_limit + p.alloc_memory > p.max_memory * 1024
  · rw [get_sandbox_mem_fail H SC p base_image packages _ _ h1] at hsb
    cases hsb
  by_cases h2 : cpu_quota + p.alloc_cpu > p.max_cpu
  · rw [get_sandbox_cpu_fail H SC p base_image packages _ _ h1 h2] at hsb
    cases hsb
  have hkey := resolveImage_key_present H SC p base_image packages hwf
  rw [get_sandbox_ok H SC p base_image packages _ _ h1 h2]
  have hcache :
      ({ (resolveImage H SC p base_image packages).1 with
          alloc_memory :=
            (resolveImage H SC p base_image packages).1.alloc_memory + mem_limit,
          alloc_cpu :=
            (resolveImage H SC p base_image packages).1.alloc_cpu + cpu_quota }
        : PoolState).image_cache
        = (resolveImage H SC p base_image packages).1.image_cache := rfl
  refine ⟨rfl, ?_, ?_⟩
  · rw [hcache, hkey]
    rfl
  · set p1 : PoolState :=
      { (resolveImage H SC p base_image packages).1 with
          alloc_memory :=
            (resolveImage H SC p base_image packages).1.alloc_memory + mem_limit,
          alloc_cpu :=
            (resolveImage H SC p base_image packages).1.alloc_cpu + cpu_quota }
      with hp1
    have hkey1 : dictGet p1.image_cache
        (_hash_requirements H base_image packages)
        = some (resolveImage H SC p base_image packages).2 := by
      rw [hp1, hcache, hkey]
    have hres1 := resolveImage_hit H SC p1 base_image packages _ hkey1
    by_cases h3 : mem_limit2 + p1.alloc_memory > p1.max_memory * 1024
    · rw [get_sandbox_mem_fail H SC p1 base_image packages _ _ h3]
      exact ⟨rfl, rfl⟩
    by_cases h4 : cpu_quota2 + p1.alloc_cpu > p1.max_cpu
    · rw [get_sandbox_cpu_fail H SC p1 base_image packages _ _ h3 h4]
      exact ⟨rfl, rfl⟩
    rw [get_sandbox_ok H SC p1 base_image packages _ _ h3 h4, hres1]
    exact ⟨rfl, rfl⟩

/-- Witness for C4 at a concrete input: a fresh pool, the identity hash and a
single requirement; after the first successful call the exact key is cached
and the identical second call performs no build. -/
theorem C4_exact_key_cache_witness :
    _hash_requirements (fun s => s) "python:3.9-slim" ["requests>2"]
      = (fun s => s) ("python:3.9-slim" ++ ":"
          ++ String.intercalate "," (pysorted ["requests>2"]))
    ∧ (dictGet
        (get_sandbox (fun s => s) (fun _ _ => false) (mkPool 1 1)
          "python:3.9-slim" ["requests>2"] 100 (1/2)).1.image_cache
        (_hash_requirements (fun s => s) "python:3.9-slim" ["requests>2"])).isSome
    ∧ (get_sandbox (fun s => s) (fun _ _ => false)
        (get_sandbox (fun s => s) (fun _ _ => false) (mkPool 1 1)
          "python:3.9-slim" ["requests>2"] 100 (1/2)).1
        "python:3.9-slim" ["requests>2"] 100 (1/4)).1.next_image
      = (get_sandbox (fun s => s) (fun _ _ => false) (mkPool 1 1)
          "python:3.9-slim" ["requests>2"] 100 (1/2)).1.next_image
    ∧ (get_sandbox (fun s => s) (fun _ _ => false)
        (get_sandbox (fun s => s) (fun _ _ => false) (mkPool 1 1)
          "python:3.9-slim" ["requests>2"] 100 (1/2)).1
        "python:3.9-slim" ["requests>2"] 100 (1/4)).1.image_cache
      = (get_sandbox (fun s => s) (fun _ _ => false) (mkPool 1 1)
          "python:3.9-slim" ["requests>2"] 100 (1/2)).1.image_cache :=
  C4_exact_key_cache (fun s => s) (fun _ _ => false) (mkPool 1 1)
    "python:3.9-slim" ["requests>2"] 100 (1/2) 100 (1/4)
    (by intro kv hm; cases hm)
    ⟨_, by
      rw [get_sandbox_ok (fun s => s) (fun _ _ => false) (mkPool 1 1)
        "python:3.9-slim" ["requests>2"] 100 (1/2)
        (by norm_num [mkPool]) (by norm_num [mkPool])]⟩

/-- First pool request of the C3 scenario: fresh pool, base image
`python:3.9-slim`, requirement `numpy==1.0`. -/
def c3_first : PoolState × Except SandboxError AICodeSandbox :=
  get_sandbox (fun s => s) (fun _ _ => true) (mkPool 1000 100)
    "python:3.9-slim" ["numpy==1.0"] 100 1

/-- Second pool request of the C3 scenario: same pool afterwards, a different
base image (so the exact cache key misses) and the identical requirement. -/
def c3_second : PoolState × Except SandboxError AICodeSandbox :=
  get_sandbox (fun s => s) (fun _ _ => true) c3_first.1
    "debian:12" ["numpy==1.0"] 100 1

/-- C3: after the first request builds `img0` and records exactly the
requested constraint (`numpy` with specifier `==1.0`), the second request —
an exact-key miss whose only requirement is literally identical to the
recorded constraint, with the specifier-containment test even taken to be
constantly true — still builds a fresh image `img1` instead of reusing
`img0`: `_check_compatibility` looks the constraints cache up with the docker
`Image` object while the entries are keyed by the id string, so the lookup
always misses and compatibility reuse never happens. -/
theorem C3_compatibility_never_reuses :
    c3_first.2 = .ok ⟨"img0", 100, 100000⟩
    ∧ dictGet c3_first.1.constraints_cache (PyKey.str "img0")
        = some [("numpy", "==1.0")]
    ∧ reqName "numpy==1.0" = "numpy"
    ∧ reqSpec "numpy==1.0" = "==1.0"
    ∧ c3_first.1.next_image = 1
    ∧ c3_second.2 = .ok ⟨"img1", 100, 100000⟩
    ∧ c3_second.1.next_image = 2 := by
  have hpy : pyInt ((1:ℚ) * 100000) = 100000 := by
    rw [pyInt, if_pos (by norm_num),
      show ((1:ℚ) * 100000) = ((100000:ℤ):ℚ) by norm_num, Int.floor_intCast]
  have hok1 := get_sandbox_ok (fun s => s) (fun _ _ => true) (mkPool 1000 100)
    "python:3.9-slim" ["numpy==1.0"] 100 1
    (by norm_num [mkPool]) (by norm_num [mkPool])
  have hres1 : resolveImage (fun s => s) (fun _ _ => true) (mkPool 1000 100)
      "python:3.9-slim" ["numpy==1.0"]
      = (⟨1000, 100, 0, 0,
          [("python:3.9-slim:numpy==1.0", ⟨"img0"⟩)],
          [(PyKey.str "img0", [("numpy", "==1.0")])], 1⟩, ⟨"img0"⟩) := rfl
  have hp1 : c3_first.1
      = ⟨1000, 100, 100, 1,
          [("python:3.9-slim:numpy==1.0", ⟨"img0"⟩)],
          [(PyKey.str "img0", [("numpy", "==1.0")])], 1⟩ := by
    show (get_sandbox (fun s => s) (fun _ _ => true) (mkPool 1000 100)
        "python:3.9-slim" ["numpy==1.0"] 100 1).1 = _
    rw [hok1, hres1]
    simp [PoolState.mk.injEq, mkPool]
  have hres2 : resolveImage (fun s => s) (fun _ _ => true)
      (⟨1000, 100, 100, 1,
          [("python:3.9-slim:numpy==1.0", ⟨"img0"⟩)],
          [(PyKey.str "img0", [("numpy", "==1.0")])], 1⟩ : PoolState)
      "debian:12" ["numpy==1.0"]
      = (⟨1000, 100, 100, 1,
          [("python:3.9-slim:numpy==1.0", ⟨"img0"⟩),
           ("debian:12:numpy==1.0", ⟨"img1"⟩)],
          [(PyKey.str "img0", [("numpy", "==1.0")]),
           (PyKey.str "img1", [("numpy", "==1.0")])], 2⟩, ⟨"img1"⟩) := rfl
  have hok2 := get_sandbox_ok (fun s => s) (fun _ _ => true)
    (⟨1000, 100, 100, 1,
        [("python:3.9-slim:numpy==1.0", ⟨"img0"⟩)],
        [(PyKey.str "img0", [("numpy", "==1.0")])], 1⟩ : PoolState)
    "debian:12" ["numpy==1.0"] 100 1
    (by norm_num) (by norm_num)
  refine ⟨?_, ?_, rfl, rfl, ?_, ?_, ?_⟩
  · show (get_sandbox (fun s => s) (fun _ _ => true) (mkPool 1000 100)
        "python:3.9-slim" ["numpy==1.0"] 100 1).2 = _
    rw [hok1, hres1, hpy]
  · rw [hp1]
    rfl
  · rw [hp1]
  · show (get_sandbox (fun s => s) (fun _ _ => true) c3_first.1
        "debian:12" ["numpy==1.0"] 100 1).2 = _
    rw [hp1, hok2, hres2, hpy]
  · show (get_sandbox (fun s => s) (fun _ _ => true) c3_first.1
        "debian:12" ["numpy==1.0"] 100 1).1.next_image = _
    rw [hp1, hok2, hres2]

theorem mem_limit_128m : _mem_limit_to_int "128m" = 134217728 := by decide

theorem mem_limit_512m : _mem_limit_to_int "512m" = 536870912 := by decide

theorem mem_limit_1g : _mem_limit_to_int "1g" = 1073741824 := by decide

theorem mem_limit_2g : _mem_limit_to_int "2g" = 2147483648 := by decide

theorem mem_limit_4g : _mem_limit_to_int "4g" = 4294967296 := by decide

theorem mem_limit_8g : _mem_limit_to_int "8g" = 8589934592 := by decide

theorem mem_limit_16g : _mem_limit_to_int "16g" = 17179869184 := by decide

theorem mem_limit_32g : _mem_limit_to_int "32g" = 34359738368 := by decide

/-- C9 counterexample: with the host memory ceiling exactly equal to the
`tiny` tier's memory limit and the cpu ceiling exactly equal to its cpu
quota, the filter keeps `tiny` (the scan breaks only on a strict `>`), yet
neither of the tier's values is strictly below its ceiling — the claimed
strict bound fails at equality. -/
theorem C9_strict_bound_counterexample :
    "tiny" ∈ (filtering_available 134217728 25000).1
    ∧ _mem_limit_to_int "128m" = 134217728
    ∧ ¬ _mem_limit_to_int "128m" < 134217728
    ∧ ¬ (25000 < 25000) := by
  refine ⟨by decide, by decide, by decide, by omega⟩

theorem go_cons_pass (m c : Nat) (n : String) (cfg : SandboxConfig)
    (rest : List (String × SandboxConfig))
    (hm : ¬ _mem_limit_to_int cfg.mem_limit > m) (hq : ¬ cfg.cpu_quota > c) :
    filtering_available_go m c ((n, cfg) :: rest)
      = n :: filtering_available_go m c rest := by
  simp [filtering_available_go, hm, hq]

theorem go_fail_mem (m c : Nat) (n : String) (cfg : SandboxConfig)
    (rest : List (String × SandboxConfig))
    (hm : _mem_limit_to_int cfg.mem_limit > m) :
    filtering_available_go m c ((n, cfg) :: rest) = [] := by
  simp [filtering_available_go, hm]

theorem go_fail_cpu (m c : Nat) (n : String) (cfg : SandboxConfig)
    (rest : List (String × SandboxConfig))
    (hm : ¬ _mem_limit_to_int cfg.mem_limit > m) (hq : cfg.cpu_quota > c) :
    filtering_available_go m c ((n, cfg) :: rest) = [] := by
  simp [filtering_available_go, hm, hq]

/-- On a table whose rows increase (pairwise) in both resource dimensions and
whose tier names are distinct, a name is kept by the break-at-first-failure
scan iff its own row passes both (non-strict) ceiling tests. -/
theorem go_mem_iff (m c : Nat) :
    ∀ tbl : List (String × SandboxConfig),
    List.Pairwise (fun a b =>
      _mem_limit_to_int a.2.mem_limit ≤ _mem_limit_to_int b.2.mem_limit
        ∧ a.2.cpu_quota ≤ b.2.cpu_quota) tbl →
    (tbl.map Prod.fst).Nodup →
    ∀ name cfg, (name, cfg) ∈ tbl →
    (name ∈ filtering_available_go m c tbl
      ↔ _mem_limit_to_int cfg.mem_limit ≤ m ∧ cfg.cpu_quota ≤ c) := by
  intro tbl
  induction tbl with
  | nil => intro _ _ name cfg hmem; cases hmem
  | cons hd rest ih =>
    rcases hd with ⟨n0, c0⟩
    intro hpw hnd name cfg hmem
    rw [List.pairwise_cons] at hpw
    obtain ⟨hrel, hpw'⟩ := hpw
    rw [List.map_cons, List.nodup_cons] at hnd
    obtain ⟨hn0, hnd'⟩ := hnd
    rcases List.mem_cons.mp hmem with heq | hmem'
    · obtain ⟨rfl, rfl⟩ : name = n0 ∧ cfg = c0 := by
        exact ⟨congrArg Prod.fst heq, congrArg Prod.snd heq⟩
      by_cases hm : _mem_limit_to_int cfg.mem_limit > m
      · rw [go_fail_mem m c name cfg rest hm]
        simp
        omega
      · by_cases hq : cfg.cpu_quota > c
        · rw [go_fail_cpu m c name cfg rest hm hq]
          simp
          omega
        · rw [go_cons_pass m c name cfg rest hm hq]
          simp
          omega
    · by_cases hm : _mem_limit_to_int c0.mem_limit > m
      · rw [go_fail_mem m c n0 c0 rest hm]
        have hle := hrel (name, cfg) hmem'
        simp only at hle
        simp
        omega
      · by_cases hq : c0.cpu_quota > c
        · rw [go_fail_cpu m c n0 c0 rest hm hq]
          have hle := hrel (name, cfg) hmem'
          simp only at hle
          simp
          omega
        · rw [go_cons_pass m c n0 c0 rest hm hq]
          have hmm : name ∈ rest.map Prod.fst :=
            List.mem_map_of_mem Prod.fst hmem'
          have hne : name ≠ n0 := fun h => hn0 (h ▸ hmm)
          rw [List.mem_cons]
          rw [ih hpw' hnd' name cfg hmem']
          constructor
          · rintro (h | h)
            · exact absurd h hne
            · exact h
          · intro h
            exact Or.inr h

/-- C9 (amended): for every pair of host ceilings, the scan keeps the tiers
in table order up to (and excluding) the first tier whose memory limit or
cpu quota strictly exceeds its ceiling, so once one tier fails either test
all later tiers are excluded; and for the fixed (monotonically increasing)
tier table a tier name is available if and only if its memory limit and cpu
quota are less than or equal to — not strictly below — the respective
ceilings. -/
theorem C9_filtering_available_amended (memCeil cpuCeil : Nat) :
    (∀ tbl : List (String × SandboxConfig),
      filtering_available_go memCeil cpuCeil tbl
        = (tbl.takeWhile fun nc =>
            decide (_mem_limit_to_int nc.2.mem_limit ≤ memCeil)
              && decide (nc.2.cpu_quota ≤ cpuCeil)).map Prod.fst)
    ∧ (∀ name cfg, (name, cfg) ∈ readymade →
        (name ∈ (filtering_available memCeil cpuCeil).1
          ↔ _mem_limit_to_int cfg.mem_limit ≤ memCeil
            ∧ cfg.cpu_quota ≤ cpuCeil)) := by
  constructor
  · intro tbl
    induction tbl with
    | nil => rfl
    | cons nc rest ih =>
      rcases nc with ⟨n, cfg⟩
      by_cases hm : _mem_limit_to_int cfg.mem_limit > memCeil
      · rw [go_fail_mem memCeil cpuCeil n cfg rest hm]
        rw [List.takeWhile_cons]
        simp [Nat.not_le.mpr hm]
      · by_cases hq : cfg.cpu_quota > cpuCeil
        · rw [go_fail_cpu memCeil cpuCeil n cfg rest hm hq]
          rw [List.takeWhile_cons]
          simp [Nat.not_lt.mp hm, Nat.not_le.mpr hq]
        · rw [go_cons_pass memCeil cpuCeil n cfg rest hm hq]
          rw [List.takeWhile_cons]
          simp [Nat.not_lt.mp hm, Nat.not_lt.mp hq, ih]
  · intro name cfg hmem
    exact go_mem_iff memCeil cpuCeil readymade (by decide) (by decide)
      name cfg hmem

/-- Witness for C9 (amended) with ceilings exactly at the `medium` tier:
`medium` is available iff its two values pass the non-strict tests. -/
theorem C9_filtering_available_amended_witness :
    "medium" ∈ (filtering_available 1073741824 75000).1
      ↔ _mem_limit_to_int "1g" ≤ 1073741824 ∧ 75000 ≤ 75000 :=
  (C9_filtering_available_amended 1073741824 75000).2 "medium"
    ⟨"1g", 75000⟩ (by decide)
